import Mathlib

/-
Verification of the social-engagement subsystem: the Firestore-backed client
module (functions `getUserId`, `getUserName` and the `SocialAPI` object with
`like`, `unlike`, `getLikesCount`, `hasUserLiked`, `addComment`,
`getCommentsCount`, `getComments`, `deleteComment`, `follow`,
`getFollowersCount`, `getStats`) together with the authentication module
(`AuthAPI.signInWithEmail`, `AuthAPI.signOut`) and their effect on the
browser-local identity store.

The document store (Firestore) is modelled as three assoc-lists of documents
keyed by a document-id string; `set` on a document reference is an upsert by
id, `delete` removes by id, and a `where facultyId ==` query filters on the
stored field.  Server-assigned timestamps are modelled by a counter `now`
that advances on every write.  `localStorage` is a record of three optional
strings; JavaScript truthiness of `getItem` results (null and the empty
string are both falsy) is modelled by `getItemTruthy`.  Code paths that
depend on the environment (Firebase initialised or not, `prompt` results,
generated ids, store calls throwing) are parametrised by a context `Ctx`;
a `try/catch` that rethrows is modelled by an error result, and a
`try/catch` that returns a fallback is modelled by returning that fallback.
-/

/-- A document of the `likes` collection (fields written by `SocialAPI.like`). -/
structure LikeDoc where
  facultyId : String
  userId : String
  userName : String
  reactionType : String
  createdAt : Nat
deriving Repr, DecidableEq

/-- A document of the `comments` collection (fields written by `SocialAPI.addComment`). -/
structure CommentDoc where
  facultyId : String
  userId : String
  userName : String
  content : String
  createdAt : Nat
  updatedAt : Nat
deriving Repr, DecidableEq

/-- A document of the `follows` collection (fields written by `SocialAPI.follow`). -/
structure FollowDoc where
  facultyId : String
  userId : String
  userName : String
  createdAt : Nat
deriving Repr, DecidableEq

/-- The Firestore database: three collections of documents keyed by document
id, plus the server clock used for server-assigned timestamps. -/
structure Store where
  likes : List (String × LikeDoc)
  comments : List (String × CommentDoc)
  follows : List (String × FollowDoc)
  now : Nat
deriving Repr, DecidableEq

/-- The browser `localStorage` keys used by the module (`none` = key absent). -/
structure LocalStore where
  social_user_id : Option String
  social_user_name : Option String
  social_user_email : Option String
deriving Repr, DecidableEq

/-- Environment of a call: whether Firebase is initialised (`getFirestore`
returns a handle), what `prompt` would return, the ids that would be
generated fresh, and which store operations throw. -/
structure Ctx where
  dbOk : Bool
  promptResult : Option String
  freshUserId : String
  freshCommentId : String
  likesQueryFails : Bool
  commentsQueryFails : Bool
  followsQueryFails : Bool
  writeFails : Bool
deriving Repr, DecidableEq

/-- Errors thrown by the module (spec taxonomy in parentheses):
`noFirebase` = "Firebase not initialized", `userNameRequired` =
"User name is required" (NoDisplayName), `emptyComment` = "Comment cannot
be empty" (EmptyBody), `commentTooLong` = "Comment is too long" (BodyTooLong),
`commentNotFound` = "Comment not found" (NotFound), `notAuthorized` =
"Not authorized to delete this comment" (NotAuthorized), `storeFailure` =
a rethrown store-layer error (StoreUnavailable). -/
inductive SocialError where
  | noFirebase
  | userNameRequired
  | emptyComment
  | commentTooLong
  | commentNotFound
  | notAuthorized
  | storeFailure
deriving Repr, DecidableEq

/-- Result of a call that may throw and may mutate the store and
localStorage: the value or error, plus the store and localStorage as they
stand when the call returns (a throw does not roll back earlier writes). -/
structure MutResult (α : Type) where
  res : Except SocialError α
  db : Store
  ls : LocalStore

instance {ε α : Type} [DecidableEq ε] [DecidableEq α] :
    DecidableEq (Except ε α) := fun a b =>
  match a, b with
  | .error e1, .error e2 =>
    if h : e1 = e2 then isTrue (by rw [h])
    else isFalse (fun he => h (Except.error.inj he))
  | .error _, .ok _ => isFalse (fun he => Except.noConfusion he)
  | .ok _, .error _ => isFalse (fun he => Except.noConfusion he)
  | .ok v1, .ok v2 =>
    if h : v1 = v2 then isTrue (by rw [h])
    else isFalse (fun he => h (Except.ok.inj he))

/-- JavaScript truthiness of a `localStorage.getItem` result: both `null`
and the empty string are falsy. -/
def getItemTruthy (v : Option String) : Option String :=
  match v with
  | some s => if s.isEmpty then none else some s
  | none => none

/-- A whitespace character as removed by JavaScript `String.prototype.trim`
(the common cases: space, tab, newline, carriage return). -/
def isWhitespaceChar (c : Char) : Bool :=
  c == ' ' || c == '\t' || c == '\n' || c == '\r'

/-- JavaScript `s.trim()`: strip whitespace from both ends. -/
def jsTrim (s : String) : String :=
  String.mk (((s.data.dropWhile isWhitespaceChar).reverse.dropWhile
    isWhitespaceChar).reverse)

/-- `getUserId`: return the stored anonymous id, or generate one (modelled
by `freshId`) and persist it. -/
def getUserId (ls : LocalStore) (freshId : String) : String × LocalStore :=
  match getItemTruthy ls.social_user_id with
  | some uid => (uid, ls)
  | none => (freshId, { ls with social_user_id := some freshId })

/-- `getUserName`: return the stored display name; otherwise prompt.  A
truthy prompt answer with non-blank trim is persisted trimmed and returned
untrimmed; otherwise the function returns `null`. -/
def getUserName (ls : LocalStore) (promptResult : Option String) :
    Option String × LocalStore :=
  match getItemTruthy ls.social_user_name with
  | some n => (some n, ls)
  | none =>
    match promptResult with
    | some s =>
      if (jsTrim s).isEmpty then (none, ls)
      else (some s, { ls with social_user_name := some (jsTrim s) })
    | none => (none, ls)

/-- Firestore `docRef.set`: upsert by document id. -/
def setDoc {α : Type} (coll : List (String × α)) (id : String) (d : α) :
    List (String × α) :=
  if coll.any (fun p => p.1 == id) then
    coll.map (fun p => if p.1 == id then (id, d) else p)
  else
    coll ++ [(id, d)]

/-- Firestore `docRef.delete`: remove by document id (no-op if absent). -/
def deleteDoc {α : Type} (coll : List (String × α)) (id : String) :
    List (String × α) :=
  coll.filter (fun p => p.1 != id)

/-- Firestore `docRef.get().data()`: look up a document by id. -/
def findDoc {α : Type} (coll : List (String × α)) (id : String) : Option α :=
  (coll.find? (fun p => p.1 == id)).map Prod.snd

/-- The composite-key document id used for likes and follows:
`` `${facultyId}_${userId}` ``. -/
def likeDocId (facultyId userId : String) : String :=
  facultyId ++ "_" ++ userId

namespace SocialAPI

/-- `SocialAPI.getLikesCount`: count of like documents whose `facultyId`
field matches.  Returns 0 when Firebase is missing, and — because the
function catches its own errors — also returns 0 when the query fails. -/
def getLikesCount (ctx : Ctx) (db : Store) (facultyId : String) : Nat :=
  if ctx.dbOk = false then 0
  else if ctx.likesQueryFails then 0
  else (db.likes.filter (fun p => p.2.facultyId == facultyId)).length

/-- `SocialAPI.getCommentsCount`: same shape as `getLikesCount`, on the
`comments` collection. -/
def getCommentsCount (ctx : Ctx) (db : Store) (facultyId : String) : Nat :=
  if ctx.dbOk = false then 0
  else if ctx.commentsQueryFails then 0
  else (db.comments.filter (fun p => p.2.facultyId == facultyId)).length

/-- `SocialAPI.getFollowersCount`: same shape, on the `follows` collection. -/
def getFollowersCount (ctx : Ctx) (db : Store) (facultyId : String) : Nat :=
  if ctx.dbOk = false then 0
  else if ctx.followsQueryFails then 0
  else (db.follows.filter (fun p => p.2.facultyId == facultyId)).length

/-- `SocialAPI.like`: resolve the actor, throw if no display name, then
upsert the like document keyed by `likeDocId` and return the refreshed
count (a store write failure is rethrown). -/
def like (ctx : Ctx) (db : Store) (ls : LocalStore)
    (facultyId reactionType : String) : MutResult Nat :=
  if ctx.dbOk = false then ⟨.error .noFirebase, db, ls⟩
  else
    let userId := (getUserId ls ctx.freshUserId).1
    let ls1 := (getUserId ls ctx.freshUserId).2
    match (getUserName ls1 ctx.promptResult).1 with
    | none => ⟨.error .userNameRequired, db, (getUserName ls1 ctx.promptResult).2⟩
    | some userName =>
      let ls2 := (getUserName ls1 ctx.promptResult).2
      if ctx.writeFails then ⟨.error .storeFailure, db, ls2⟩
      else
        let doc : LikeDoc := ⟨facultyId, userId, userName, reactionType, db.now⟩
        let db1 : Store := { db with
          likes := setDoc db.likes (likeDocId facultyId userId) doc,
          now := db.now + 1 }
        ⟨.ok (getLikesCount ctx db1 facultyId), db1, ls2⟩

/-- `SocialAPI.unlike`: delete the like document keyed by `likeDocId`
(Firestore delete is a no-op when the document is absent) and return the
refreshed count (a store failure is rethrown). -/
def unlike (ctx : Ctx) (db : Store) (ls : LocalStore) (facultyId : String) :
    MutResult Nat :=
  if ctx.dbOk = false then ⟨.error .noFirebase, db, ls⟩
  else
    let userId := (getUserId ls ctx.freshUserId).1
    let ls1 := (getUserId ls ctx.freshUserId).2
    if ctx.writeFails then ⟨.error .storeFailure, db, ls1⟩
    else
      let db1 : Store := { db with
        likes := deleteDoc db.likes (likeDocId facultyId userId) }
      ⟨.ok (getLikesCount ctx db1 facultyId), db1, ls1⟩

/-- `SocialAPI.hasUserLiked`: existence check on the composite-key document;
returns `false` when Firebase is missing and — because the function catches
its own errors — also `false` when the store read fails. -/
def hasUserLiked (ctx : Ctx) (db : Store) (ls : LocalStore)
    (facultyId : String) : Bool × LocalStore :=
  if ctx.dbOk = false then (false, ls)
  else
    let userId := (getUserId ls ctx.freshUserId).1
    let ls1 := (getUserId ls ctx.freshUserId).2
    if ctx.likesQueryFails then (false, ls1)
    else (db.likes.any (fun p => p.1 == likeDocId facultyId userId), ls1)

/-- `SocialAPI.addComment`: resolve the actor, throw if no display name,
validate the body (non-blank after trim, at most 2000 characters), then
`add` a fresh comment document with server timestamps and return it with
the refreshed count. -/
def addComment (ctx : Ctx) (db : Store) (ls : LocalStore)
    (facultyId content : String) : MutResult (String × CommentDoc × Nat) :=
  if ctx.dbOk = false then ⟨.error .noFirebase, db, ls⟩
  else
    let userId := (getUserId ls ctx.freshUserId).1
    let ls1 := (getUserId ls ctx.freshUserId).2
    match (getUserName ls1 ctx.promptResult).1 with
    | none => ⟨.error .userNameRequired, db, (getUserName ls1 ctx.promptResult).2⟩
    | some userName =>
      let ls2 := (getUserName ls1 ctx.promptResult).2
      if (jsTrim content).isEmpty then ⟨.error .emptyComment, db, ls2⟩
      else if 2000 < content.length then ⟨.error .commentTooLong, db, ls2⟩
      else if ctx.writeFails then ⟨.error .storeFailure, db, ls2⟩
      else
        let doc : CommentDoc :=
          ⟨facultyId, userId, userName, jsTrim content, db.now, db.now⟩
        let db1 : Store := { db with
          comments := db.comments ++ [(ctx.freshCommentId, doc)],
          now := db.now + 1 }
        ⟨.ok (ctx.freshCommentId, doc, getCommentsCount ctx db1 facultyId), db1, ls2⟩

/-- Comparison used for `orderBy createdAt desc`: `a` may precede `b` when
`b`'s timestamp is at most `a`'s. -/
def newestFirst (a b : String × CommentDoc) : Bool :=
  Nat.ble b.2.createdAt a.2.createdAt

/-- Result shape of `SocialAPI.getComments`. -/
structure CommentsPage where
  comments : List (String × CommentDoc)
  commentsCount : Nat
  hasMore : Bool
deriving Repr, DecidableEq

/-- `SocialAPI.getComments`: the subject's comments ordered newest-first,
truncated to `limit`, plus the total count and `hasMore = totalCount > limit`
(no cursor/offset; the function catches its own errors and returns an empty
page on failure). -/
def getComments (ctx : Ctx) (db : Store) (facultyId : String) (limit : Nat) :
    CommentsPage :=
  if ctx.dbOk = false then ⟨[], 0, false⟩
  else if ctx.commentsQueryFails then ⟨[], 0, false⟩
  else
    let matching := db.comments.filter (fun p => p.2.facultyId == facultyId)
    let page := (matching.mergeSort newestFirst).take limit
    let total := getCommentsCount ctx db facultyId
    ⟨page, total, decide (limit < total)⟩

/-- `SocialAPI.deleteComment`: load the comment (a failing read is
rethrown), throw `commentNotFound` if absent, throw `notAuthorized` unless
the stored `userId` equals the requester's, else delete. -/
def deleteComment (ctx : Ctx) (db : Store) (ls : LocalStore)
    (commentId : String) : MutResult Unit :=
  if ctx.dbOk = false then ⟨.error .noFirebase, db, ls⟩
  else
    let userId := (getUserId ls ctx.freshUserId).1
    let ls1 := (getUserId ls ctx.freshUserId).2
    if ctx.commentsQueryFails then ⟨.error .storeFailure, db, ls1⟩
    else
      match findDoc db.comments commentId with
      | none => ⟨.error .commentNotFound, db, ls1⟩
      | some c =>
        if c.userId ≠ userId then ⟨.error .notAuthorized, db, ls1⟩
        else if ctx.writeFails then ⟨.error .storeFailure, db, ls1⟩
        else ⟨.ok (), { db with comments := deleteDoc db.comments commentId }, ls1⟩

/-- `SocialAPI.follow`: same upsert shape as `like`, on the `follows`
collection. -/
def follow (ctx : Ctx) (db : Store) (ls : LocalStore) (facultyId : String) :
    MutResult Nat :=
  if ctx.dbOk = false then ⟨.error .noFirebase, db, ls⟩
  else
    let userId := (getUserId ls ctx.freshUserId).1
    let ls1 := (getUserId ls ctx.freshUserId).2
    match (getUserName ls1 ctx.promptResult).1 with
    | none => ⟨.error .userNameRequired, db, (getUserName ls1 ctx.promptResult).2⟩
    | some userName =>
      let ls2 := (getUserName ls1 ctx.promptResult).2
      if ctx.writeFails then ⟨.error .storeFailure, db, ls2⟩
      else
        let doc : FollowDoc := ⟨facultyId, userId, userName, db.now⟩
        let db1 : Store := { db with
          follows := setDoc db.follows (likeDocId facultyId userId) doc,
          now := db.now + 1 }
        ⟨.ok (getFollowersCount ctx db1 facultyId), db1, ls2⟩

/-- Result shape of `SocialAPI.getStats`. -/
structure Stats where
  likesCount : Nat
  commentsCount : Nat
  followersCount : Nat
deriving Repr, DecidableEq

/-- `SocialAPI.getStats`: the three counts combined.  Each count function
catches its own errors and degrades to 0, so the aggregate always returns
a `Stats` value. -/
def getStats (ctx : Ctx) (db : Store) (facultyId : String) : Stats :=
  ⟨getLikesCount ctx db facultyId,
   getCommentsCount ctx db facultyId,
   getFollowersCount ctx db facultyId⟩

end SocialAPI

namespace AuthAPI

/-- `email.split('@')[0]`: the part of the address before the first `@`. -/
def emailLocalPart (email : String) : String :=
  email.takeWhile (fun c => c ≠ '@')

/-- Local-storage effect of `AuthAPI.signInWithEmail` on success: overwrite
the three identity keys with the session values (`displayName` falls back
to the email local part when null or empty, per `||`). -/
def signInWithEmail (ls : LocalStore) (uid : String)
    (displayName : Option String) (email : String) : LocalStore :=
  { social_user_id := some uid,
    social_user_name := some (match getItemTruthy displayName with
      | some d => d
      | none => emailLocalPart email),
    social_user_email := some email }

/-- Local-storage effect of `AuthAPI.signOut`: none — the code deliberately
does not clear localStorage ("keep anonymous user ID"). -/
def signOut (ls : LocalStore) : LocalStore := ls

end AuthAPI

/-- A context in which Firebase is initialised and no store call fails;
used to instantiate theorems at concrete inputs. -/
def ctxg : Ctx := ⟨true, none, "gen", "c1", false, false, false, false⟩

/-- A context in which the likes-collection query throws. -/
def ctxLikesFail : Ctx := ⟨true, none, "gen", "c1", true, false, false, false⟩

/-- A context in which every store call throws. -/
def ctxAllFail : Ctx := ⟨true, none, "gen", "c1", true, true, true, true⟩

/-- A localStorage state with the identity (anonymous id "u1", name "Ann")
already persisted. -/
def lsAnn : LocalStore := ⟨some "u1", some "Ann", none⟩

/-- A localStorage state with an anonymous id but no display name stored. -/
def lsNoName : LocalStore := ⟨some "u1", none, none⟩

/-- An empty document store. -/
def dbEmpty : Store := ⟨[], [], [], 0⟩

/-- A store already holding a like by actor "u1" on subject "f". -/
def dbLiked : Store := ⟨[("f_u1", ⟨"f", "u1", "Ann", "like", 0⟩)], [], [], 1⟩

/-- A store holding one comment by actor "u2" on subject "f42". -/
def dbOneComment : Store :=
  ⟨[], [("c9", ⟨"f42", "u2", "Bob", "Great work!", 0, 0⟩)], [], 1⟩

/-- A 2001-character comment body. -/
def longBody : String := String.mk (List.replicate 2001 'a')

section StoreLemmas

variable {α : Type}

/-- After an upsert, a document with the written id is present. -/
theorem setDoc_any_self (coll : List (String × α)) (id : String) (d : α) :
    (setDoc coll id d).any (fun p => p.1 == id) = true := by
  unfold setDoc
  cases h : coll.any (fun p => p.1 == id) with
  | false =>
    simp only [h, Bool.false_eq_true, if_false, List.any_append, List.any_cons,
      List.any_nil, beq_self_eq_true, Bool.true_or, Bool.or_true]
  | true =>
    simp only [h, if_true]
    rcases List.any_eq_true.mp h with ⟨x, hx, hpx⟩
    refine List.any_eq_true.mpr ⟨(id, d), List.mem_map.mpr ⟨x, hx, ?_⟩, by simp⟩
    simp [hpx]

/-- Replacing the document stored at an id does not change the key list. -/
theorem keys_map_replace (coll : List (String × α)) (id : String) (d : α) :
    (coll.map (fun p => if p.1 == id then (id, d) else p)).map Prod.fst
      = coll.map Prod.fst := by
  rw [List.map_map]
  refine List.map_congr_left ?_
  intro p _
  by_cases h : (p.1 == id) = true
  · simp only [Function.comp_apply, h, if_true]
    exact (eq_of_beq h).symm
  · have h2 : p.1 ≠ id := fun he => h (by simp [he])
    simp [Function.comp_apply, h, h2]

/-- An upsert keeps document ids pairwise distinct. -/
theorem keys_setDoc_nodup (coll : List (String × α)) (id : String) (d : α)
    (hnd : (coll.map Prod.fst).Nodup) :
    ((setDoc coll id d).map Prod.fst).Nodup := by
  unfold setDoc
  cases h : coll.any (fun p => p.1 == id) with
  | true =>
    rw [if_pos rfl, keys_map_replace]
    exact hnd
  | false =>
    have hid : id ∉ coll.map Prod.fst := by
      intro hm
      rcases List.mem_map.mp hm with ⟨p, hp, hfst⟩
      exact (List.any_eq_false.mp h p hp) (by simp [hfst])
    simp [h, List.map_append, List.nodup_append, hnd, List.disjoint_singleton, hid]

/-- With pairwise-distinct ids, at most one document matches a given id. -/
theorem filter_key_le_one (coll : List (String × α)) (id : String)
    (hnd : (coll.map Prod.fst).Nodup) :
    (coll.filter (fun p => p.1 == id)).length ≤ 1 := by
  induction coll with
  | nil => simp
  | cons x t ih =>
    simp only [List.map_cons, List.nodup_cons] at hnd
    by_cases hx : (x.1 == id) = true
    · have ht : t.filter (fun p => p.1 == id) = [] := by
        refine List.filter_eq_nil_iff.mpr ?_
        intro p hp hbp
        exact hnd.1 (List.mem_map.mpr ⟨p, hp, by rw [eq_of_beq hbp, eq_of_beq hx]⟩)
      simp [List.filter_cons, hx, ht]
    · simp only [List.filter_cons, hx, Bool.false_eq_true, if_false]
      exact ih hnd.2

/-- With pairwise-distinct ids, after an upsert exactly the written document
matches the written id. -/
theorem filter_key_setDoc (coll : List (String × α)) (id : String) (d : α)
    (hnd : (coll.map Prod.fst).Nodup) :
    (setDoc coll id d).filter (fun p => p.1 == id) = [(id, d)] := by
  unfold setDoc
  cases h : coll.any (fun p => p.1 == id) with
  | false =>
    rw [if_neg (by simp [h]), List.filter_append]
    have h1 : coll.filter (fun p => p.1 == id) = [] :=
      List.filter_eq_nil_iff.mpr (List.any_eq_false.mp h)
    simp [h1]
  | true =>
    rw [if_pos rfl, List.filter_map]
    have hcomp : ((fun p : String × α => p.1 == id) ∘
        (fun p => if p.1 == id then (id, d) else p))
        = (fun p : String × α => p.1 == id) := by
      funext p
      by_cases hx : (p.1 == id) = true
      · have hp : p.1 = id := eq_of_beq hx
        simp [hp]
      · have hp : ¬ p.1 = id := fun he => hx (by simp [he])
        simp [hp]
    rw [hcomp]
    rcases List.any_eq_true.mp h with ⟨x, hx, hpx⟩
    have hle := filter_key_le_one coll id hnd
    have hmem : x ∈ coll.filter (fun p => p.1 == id) := List.mem_filter.mpr ⟨hx, hpx⟩
    cases hfil : coll.filter (fun p => p.1 == id) with
    | nil => rw [hfil] at hmem; cases hmem
    | cons y ys =>
      rw [hfil] at hle
      have hys : ys = [] := by
        cases ys with
        | nil => rfl
        | cons z zs => simp at hle
      subst hys
      have hy : (y.1 == id) = true := by
        have hm : y ∈ coll.filter (fun p => p.1 == id) := by
          rw [hfil]; exact List.mem_cons_self _ _
        exact (List.mem_filter.mp hm).2
      have hyid : y.1 = id := eq_of_beq hy
      simp [hyid]

/-- Overwriting the unique document at an id with a document on which a
predicate agrees leaves the predicate's match count unchanged. -/
theorem length_filter_setDoc_congr (coll : List (String × α)) (id : String)
    (d0 d : α) (P : String × α → Bool)
    (hfil : coll.filter (fun p => p.1 == id) = [(id, d0)])
    (hP : P (id, d0) = P (id, d)) :
    ((setDoc coll id d).filter P).length = (coll.filter P).length := by
  unfold setDoc
  have hany : coll.any (fun p => p.1 == id) = true := by
    refine List.any_eq_true.mpr ⟨(id, d0), ?_, by simp⟩
    have hm : (id, d0) ∈ coll.filter (fun p => p.1 == id) := by
      rw [hfil]; exact List.mem_cons_self _ _
    exact (List.mem_filter.mp hm).1
  rw [if_pos hany, List.filter_map, List.length_map]
  refine congrArg List.length (List.filter_congr ?_)
  intro x hx
  by_cases hxk : (x.1 == id) = true
  · have hxe : x = (id, d0) := by
      have hm : x ∈ coll.filter (fun p => p.1 == id) := List.mem_filter.mpr ⟨hx, hxk⟩
      rw [hfil] at hm; simpa using hm
    subst hxe
    simp [Function.comp_apply, hP.symm]
  · have hxe : x.1 ≠ id := fun he => hxk (by simp [he])
    simp [Function.comp_apply, hxk, hxe]

/-- Deleting an id that is not present is the identity. -/
theorem deleteDoc_of_not_any (coll : List (String × α)) (id : String)
    (h : coll.any (fun p => p.1 == id) = false) :
    deleteDoc coll id = coll := by
  unfold deleteDoc
  refine List.filter_eq_self.mpr ?_
  intro p hp
  have h2 : (p.1 == id) = false := by
    have := List.any_eq_false.mp h p hp
    revert this; cases p.1 == id <;> simp
  simp [bne, h2]

/-- After a delete, no document with the deleted id remains. -/
theorem any_deleteDoc_self (coll : List (String × α)) (id : String) :
    (deleteDoc coll id).any (fun p => p.1 == id) = false := by
  unfold deleteDoc
  refine List.any_eq_false.mpr ?_
  intro x hx hxk
  have hmem := (List.mem_filter.mp hx).2
  have hne : (x.1 != id) = false := by
    have hxe := eq_of_beq hxk
    simp [hxe]
  rw [hne] at hmem
  cases hmem

/-- Deleting the id just appended to a collection not containing it restores
the collection. -/
theorem deleteDoc_append_single (coll : List (String × α)) (id : String) (d : α)
    (h : coll.any (fun p => p.1 == id) = false) :
    deleteDoc (coll ++ [(id, d)]) id = coll := by
  unfold deleteDoc
  rw [List.filter_append]
  have h2 : List.filter (fun p : String × α => p.1 != id) [(id, d)] = [] := by simp
  have h3 := deleteDoc_of_not_any coll id h
  unfold deleteDoc at h3
  rw [h2, List.append_nil, h3]

/-- A found document was stored under the id it was looked up by. -/
theorem findDoc_mem (coll : List (String × α)) (id : String) (d : α)
    (h : findDoc coll id = some d) : (id, d) ∈ coll := by
  unfold findDoc at h
  cases hf : coll.find? (fun p => p.1 == id) with
  | none => rw [hf] at h; cases h
  | some p =>
    rw [hf] at h
    have hp := List.find?_some hf
    have hmem := List.mem_of_find?_eq_some hf
    have h2 : some p.2 = some d := h
    have hpe : p = (id, d) := Prod.ext (eq_of_beq hp) (Option.some.inj h2)
    rw [← hpe]
    exact hmem

/-- Looking up a document after upserting it finds the written value. -/
theorem find_key_map_replace (coll : List (String × α)) (id : String) (d : α) :
    (coll.map (fun p => if p.1 == id then (id, d) else p)).find?
        (fun p => p.1 == id)
      = if coll.any (fun p => p.1 == id) then some (id, d) else none := by
  induction coll with
  | nil => simp
  | cons x t ih =>
    by_cases hx : (x.1 == id) = true
    · have hfx : (if (x.1 == id) = true then (id, d) else x) = (id, d) := if_pos hx
      simp only [List.map_cons, hfx, List.any_cons, hx, Bool.true_or, if_pos rfl]
      exact List.find?_cons_of_pos _ (by simp)
    · have hfx : (if (x.1 == id) = true then (id, d) else x) = x := if_neg hx
      simp only [List.map_cons, hfx]
      rw [@List.find?_cons_of_neg _ (fun p => p.1 == id) x _ hx, ih, List.any_cons]
      have hxf : (x.1 == id) = false := by revert hx; cases x.1 == id <;> simp
      rw [hxf, Bool.false_or]

/-- `findDoc` after `setDoc` returns the document just written. -/
theorem findDoc_setDoc_self (coll : List (String × α)) (id : String) (d : α) :
    findDoc (setDoc coll id d) id = some d := by
  unfold findDoc setDoc
  cases h : coll.any (fun p => p.1 == id) with
  | false =>
    rw [if_neg (by simp [h]), List.find?_append]
    have h1 : coll.find? (fun p => p.1 == id) = none :=
      List.find?_eq_none.mpr (List.any_eq_false.mp h)
    simp [h1]
  | true =>
    rw [if_pos rfl, find_key_map_replace, if_pos h]
    rfl

end StoreLemmas

section ResolutionLemmas

/-- `getUserId` with a truthy stored id returns it and writes nothing. -/
theorem getUserId_of_stored (ls : LocalStore) (freshId uid : String)
    (hid : getItemTruthy ls.social_user_id = some uid) :
    getUserId ls freshId = (uid, ls) := by
  unfold getUserId
  rw [hid]

/-- `getUserName` with a truthy stored name returns it and does not prompt. -/
theorem getUserName_of_stored (ls : LocalStore) (pr : Option String) (n : String)
    (hn : getItemTruthy ls.social_user_name = some n) :
    getUserName ls pr = (some n, ls) := by
  unfold getUserName
  rw [hn]

/-- `getUserId` never touches the stored display name. -/
theorem getUserId_social_user_name (ls : LocalStore) (freshId : String) :
    (getUserId ls freshId).2.social_user_name = ls.social_user_name := by
  unfold getUserId
  cases getItemTruthy ls.social_user_id <;> rfl

end ResolutionLemmas

section EvalLemmas

/-- Evaluation of `SocialAPI.like` on the happy path (Firebase up, identity
stored, write succeeds). -/
theorem like_eq (ctx : Ctx) (db : Store) (ls : LocalStore)
    (fid rt uid uname : String)
    (hdb : ctx.dbOk = true) (hw : ctx.writeFails = false)
    (hid : getItemTruthy ls.social_user_id = some uid)
    (hname : getItemTruthy ls.social_user_name = some uname) :
    SocialAPI.like ctx db ls fid rt =
      ⟨.ok (SocialAPI.getLikesCount ctx
          { db with
            likes := setDoc db.likes (likeDocId fid uid) ⟨fid, uid, uname, rt, db.now⟩,
            now := db.now + 1 } fid),
        { db with
          likes := setDoc db.likes (likeDocId fid uid) ⟨fid, uid, uname, rt, db.now⟩,
          now := db.now + 1 },
        ls⟩ := by
  simp [SocialAPI.like, hdb, hw, getUserId_of_stored ls ctx.freshUserId uid hid,
    getUserName_of_stored ls ctx.promptResult uname hname]

/-- Evaluation of `SocialAPI.unlike` on the happy path. -/
theorem unlike_eq (ctx : Ctx) (db : Store) (ls : LocalStore) (fid uid : String)
    (hdb : ctx.dbOk = true) (hw : ctx.writeFails = false)
    (hid : getItemTruthy ls.social_user_id = some uid) :
    SocialAPI.unlike ctx db ls fid =
      ⟨.ok (SocialAPI.getLikesCount ctx
          { db with likes := deleteDoc db.likes (likeDocId fid uid) } fid),
        { db with likes := deleteDoc db.likes (likeDocId fid uid) },
        ls⟩ := by
  simp [SocialAPI.unlike, hdb, hw, getUserId_of_stored ls ctx.freshUserId uid hid]

/-- Evaluation of `SocialAPI.hasUserLiked` on the happy path. -/
theorem hasUserLiked_eq (ctx : Ctx) (db : Store) (ls : LocalStore) (fid uid : String)
    (hdb : ctx.dbOk = true) (hq : ctx.likesQueryFails = false)
    (hid : getItemTruthy ls.social_user_id = some uid) :
    SocialAPI.hasUserLiked ctx db ls fid
      = (db.likes.any (fun p => p.1 == likeDocId fid uid), ls) := by
  simp [SocialAPI.hasUserLiked, hdb, hq, getUserId_of_stored ls ctx.freshUserId uid hid]

/-- Evaluation of `SocialAPI.getLikesCount` on the happy path. -/
theorem getLikesCount_eq (ctx : Ctx) (db : Store) (fid : String)
    (hdb : ctx.dbOk = true) (hq : ctx.likesQueryFails = false) :
    SocialAPI.getLikesCount ctx db fid
      = (db.likes.filter (fun p => p.2.facultyId == fid)).length := by
  simp [SocialAPI.getLikesCount, hdb, hq]

end EvalLemmas

/-- C1: calling `like` twice in a row with the same actor leaves exactly one
like document under the composite key (subjectId, actorId) — the second call
overwrites the stored `reactionType` rather than creating a duplicate — and
the second call's returned likeCount equals the first call's (the count
after a single like). -/
theorem like_twice_idempotent_upsert
    (ctx : Ctx) (db : Store) (ls : LocalStore) (fid rt1 rt2 uid uname : String)
    (hdb : ctx.dbOk = true) (hw : ctx.writeFails = false)
    (hq : ctx.likesQueryFails = false)
    (hid : getItemTruthy ls.social_user_id = some uid)
    (hname : getItemTruthy ls.social_user_name = some uname)
    (hnd : (db.likes.map Prod.fst).Nodup) :
    ((SocialAPI.like ctx (SocialAPI.like ctx db ls fid rt1).db
        (SocialAPI.like ctx db ls fid rt1).ls fid rt2).db.likes.filter
        (fun p => p.1 == likeDocId fid uid))
      = [(likeDocId fid uid,
          ⟨fid, uid, uname, rt2, (SocialAPI.like ctx db ls fid rt1).db.now⟩)]
    ∧ (SocialAPI.like ctx (SocialAPI.like ctx db ls fid rt1).db
        (SocialAPI.like ctx db ls fid rt1).ls fid rt2).res
      = (SocialAPI.like ctx db ls fid rt1).res
    ∧ (SocialAPI.like ctx db ls fid rt1).res
      = .ok (SocialAPI.getLikesCount ctx (SocialAPI.like ctx db ls fid rt1).db fid) := by
  have h1 := like_eq ctx db ls fid rt1 uid uname hdb hw hid hname
  have h2 := like_eq ctx
      { db with
        likes := setDoc db.likes (likeDocId fid uid) ⟨fid, uid, uname, rt1, db.now⟩,
        now := db.now + 1 } ls fid rt2 uid uname hdb hw hid hname
  simp only [h1, h2]
  refine ⟨?_, ?_, True.intro⟩
  · exact filter_key_setDoc _ _ _ (keys_setDoc_nodup _ _ _ hnd)
  · simp only [SocialAPI.getLikesCount, hdb, hq, Bool.true_eq_false,
      Bool.false_eq_true, if_false]
    exact congrArg Except.ok
      (length_filter_setDoc_congr _ (likeDocId fid uid)
        ⟨fid, uid, uname, rt1, db.now⟩ ⟨fid, uid, uname, rt2, db.now + 1⟩
        (fun p => p.2.facultyId == fid)
        (filter_key_setDoc db.likes (likeDocId fid uid)
          ⟨fid, uid, uname, rt1, db.now⟩ hnd) rfl)

/-- Witness for C1: actor ("u1","Ann") likes subject "f42" twice on an empty
store; the hypotheses are discharged at these concrete inputs. -/
theorem like_twice_idempotent_upsert_witness :
    ((SocialAPI.like ctxg (SocialAPI.like ctxg dbEmpty lsAnn "f42" "like").db
        (SocialAPI.like ctxg dbEmpty lsAnn "f42" "like").ls "f42" "love").db.likes.filter
        (fun p => p.1 == likeDocId "f42" "u1"))
      = [(likeDocId "f42" "u1",
          ⟨"f42", "u1", "Ann", "love",
            (SocialAPI.like ctxg dbEmpty lsAnn "f42" "like").db.now⟩)]
    ∧ (SocialAPI.like ctxg (SocialAPI.like ctxg dbEmpty lsAnn "f42" "like").db
        (SocialAPI.like ctxg dbEmpty lsAnn "f42" "like").ls "f42" "love").res
      = (SocialAPI.like ctxg dbEmpty lsAnn "f42" "like").res
    ∧ (SocialAPI.like ctxg dbEmpty lsAnn "f42" "like").res
      = .ok (SocialAPI.getLikesCount ctxg
          (SocialAPI.like ctxg dbEmpty lsAnn "f42" "like").db "f42") :=
  like_twice_idempotent_upsert ctxg dbEmpty lsAnn "f42" "like" "love" "u1" "Ann"
    rfl rfl rfl (by decide) (by decide) (by decide)

/-- C4 (amended): `like` then `unlike` always leaves `hasUserLiked` false;
and provided the actor had not already liked the subject before the `like`
call, the likeCount returned by the `unlike` equals the count before the
`like` call and the likes collection is restored exactly.  (Without that
proviso the count clause fails: see the counterexample.) -/
theorem like_unlike_roundtrip
    (ctx : Ctx) (db : Store) (ls : LocalStore) (fid rt uid uname : String)
    (hdb : ctx.dbOk = true) (hw : ctx.writeFails = false)
    (hq : ctx.likesQueryFails = false)
    (hid : getItemTruthy ls.social_user_id = some uid)
    (hname : getItemTruthy ls.social_user_name = some uname) :
    (SocialAPI.hasUserLiked ctx
        (SocialAPI.unlike ctx (SocialAPI.like ctx db ls fid rt).db
          (SocialAPI.like ctx db ls fid rt).ls fid).db
        (SocialAPI.unlike ctx (SocialAPI.like ctx db ls fid rt).db
          (SocialAPI.like ctx db ls fid rt).ls fid).ls fid).1 = false
    ∧ ((SocialAPI.hasUserLiked ctx db ls fid).1 = false →
      (SocialAPI.unlike ctx (SocialAPI.like ctx db ls fid rt).db
          (SocialAPI.like ctx db ls fid rt).ls fid).res
        = .ok (SocialAPI.getLikesCount ctx db fid)
      ∧ (SocialAPI.unlike ctx (SocialAPI.like ctx db ls fid rt).db
          (SocialAPI.like ctx db ls fid rt).ls fid).db.likes = db.likes) := by
  have h1 := like_eq ctx db ls fid rt uid uname hdb hw hid hname
  have h2 := unlike_eq ctx
      { db with
        likes := setDoc db.likes (likeDocId fid uid) ⟨fid, uid, uname, rt, db.now⟩,
        now := db.now + 1 } ls fid uid hdb hw hid
  constructor
  · simp only [h1, h2]
    rw [hasUserLiked_eq ctx _ ls fid uid hdb hq hid]
    exact any_deleteDoc_self _ _
  · intro hnot
    have hany : db.likes.any (fun p => p.1 == likeDocId fid uid) = false := by
      have h := hasUserLiked_eq ctx db ls fid uid hdb hq hid
      rw [h] at hnot
      exact hnot
    have hset : setDoc db.likes (likeDocId fid uid) ⟨fid, uid, uname, rt, db.now⟩
        = db.likes ++ [(likeDocId fid uid, ⟨fid, uid, uname, rt, db.now⟩)] := by
      unfold setDoc
      rw [if_neg (by simp [hany])]
    have hdel : deleteDoc (setDoc db.likes (likeDocId fid uid)
          ⟨fid, uid, uname, rt, db.now⟩) (likeDocId fid uid) = db.likes := by
      rw [hset]
      exact deleteDoc_append_single db.likes _ _ hany
    simp only [h1, h2, hdel]
    refine ⟨?_, True.intro⟩
    simp only [SocialAPI.getLikesCount, hdb, hq, Bool.true_eq_false,
      Bool.false_eq_true, if_false]

/-- Counterexample to C4 as stated: when the actor has already liked the
subject, `like` then `unlike` returns likeCount 0 while the count before
the `like` call was 1 — the round trip does not restore the count. -/
theorem like_unlike_roundtrip_counterexample :
    SocialAPI.getLikesCount ctxg dbLiked "f" = 1
    ∧ (SocialAPI.unlike ctxg (SocialAPI.like ctxg dbLiked lsAnn "f" "like").db
        (SocialAPI.like ctxg dbLiked lsAnn "f" "like").ls "f").res = .ok 0
    ∧ (SocialAPI.unlike ctxg (SocialAPI.like ctxg dbLiked lsAnn "f" "like").db
        (SocialAPI.like ctxg dbLiked lsAnn "f" "like").ls "f").res
      ≠ .ok (SocialAPI.getLikesCount ctxg dbLiked "f") := by
  decide

/-- Witness for C4 (amended) at concrete inputs: empty store, stored
identity ("u1","Ann"), subject "f42"; the not-already-liked proviso of the
count clause is discharged by `decide`. -/
theorem like_unlike_roundtrip_witness :
    (SocialAPI.hasUserLiked ctxg
        (SocialAPI.unlike ctxg (SocialAPI.like ctxg dbEmpty lsAnn "f42" "like").db
          (SocialAPI.like ctxg dbEmpty lsAnn "f42" "like").ls "f42").db
        (SocialAPI.unlike ctxg (SocialAPI.like ctxg dbEmpty lsAnn "f42" "like").db
          (SocialAPI.like ctxg dbEmpty lsAnn "f42" "like").ls "f42").ls "f42").1 = false
    ∧ (SocialAPI.unlike ctxg (SocialAPI.like ctxg dbEmpty lsAnn "f42" "like").db
        (SocialAPI.like ctxg dbEmpty lsAnn "f42" "like").ls "f42").res
      = .ok (SocialAPI.getLikesCount ctxg dbEmpty "f42")
    ∧ (SocialAPI.unlike ctxg (SocialAPI.like ctxg dbEmpty lsAnn "f42" "like").db
        (SocialAPI.like ctxg dbEmpty lsAnn "f42" "like").ls "f42").db.likes
      = dbEmpty.likes := by
  have h := like_unlike_roundtrip ctxg dbEmpty lsAnn "f42" "like" "u1" "Ann"
    rfl rfl rfl (by decide) (by decide)
  exact ⟨h.1, (h.2 (by decide)).1, (h.2 (by decide)).2⟩

/-- C6: `unlike` when no like document exists for the composite key is a
no-op that succeeds (no error) and returns the refreshed likeCount; the
store is unchanged. -/
theorem unlike_absent_noop
    (ctx : Ctx) (db : Store) (ls : LocalStore) (fid uid : String)
    (hdb : ctx.dbOk = true) (hw : ctx.writeFails = false)
    (hid : getItemTruthy ls.social_user_id = some uid)
    (hnot : db.likes.any (fun p => p.1 == likeDocId fid uid) = false) :
    (SocialAPI.unlike ctx db ls fid).res = .ok (SocialAPI.getLikesCount ctx db fid)
    ∧ (SocialAPI.unlike ctx db ls fid).db = db := by
  have h := unlike_eq ctx db ls fid uid hdb hw hid
  have hdel : deleteDoc db.likes (likeDocId fid uid) = db.likes :=
    deleteDoc_of_not_any db.likes _ hnot
  simp only [h, hdel]
  constructor <;> trivial

/-- Witness for C6: unliking subject "f42" on the empty store with actor
"u1" succeeds and changes nothing. -/
theorem unlike_absent_noop_witness :
    (SocialAPI.unlike ctxg dbEmpty lsAnn "f42").res
      = .ok (SocialAPI.getLikesCount ctxg dbEmpty "f42")
    ∧ (SocialAPI.unlike ctxg dbEmpty lsAnn "f42").db = dbEmpty :=
  unlike_absent_noop ctxg dbEmpty lsAnn "f42" "u1" rfl rfl (by decide) (by decide)

/-- A comment of the subject appears in the `getComments` page whenever the
subject's comments all fit within the requested limit. -/
theorem mem_getComments_of_le_limit (ctx : Ctx) (db : Store) (fid : String)
    (limit : Nat) (cid : String) (c : CommentDoc)
    (hdb : ctx.dbOk = true) (hcq : ctx.commentsQueryFails = false)
    (hmem : (cid, c) ∈ db.comments) (hfac : c.facultyId = fid)
    (hle : (db.comments.filter (fun p => p.2.facultyId == fid)).length ≤ limit) :
    (cid, c) ∈ (SocialAPI.getComments ctx db fid limit).comments := by
  simp only [SocialAPI.getComments, hdb, hcq, Bool.true_eq_false,
    Bool.false_eq_true, if_false]
  have hm : (cid, c) ∈ db.comments.filter (fun p => p.2.facultyId == fid) :=
    List.mem_filter.mpr ⟨hmem, by simp [hfac]⟩
  have hlen : ((db.comments.filter (fun p => p.2.facultyId == fid)).mergeSort
      SocialAPI.newestFirst).length ≤ limit := by
    rw [List.length_mergeSort]
    exact hle
  rw [List.take_of_length_le hlen]
  exact List.mem_mergeSort.mpr hm

/-- C2: deleting someone else's comment fails `notAuthorized` and performs
no delete — the store is unchanged and a subsequent `getComments` still
returns the comment; deleting a nonexistent comment fails `commentNotFound`
with the store unchanged; and deletion can only succeed when the
requester's stored actorId equals the comment's stored `userId`. -/
theorem deleteComment_owner_only
    (ctx : Ctx) (db : Store) (ls : LocalStore) (cid uidB : String) (limit : Nat)
    (hdb : ctx.dbOk = true) (hcq : ctx.commentsQueryFails = false)
    (hid : getItemTruthy ls.social_user_id = some uidB) :
    (findDoc db.comments cid = none →
      (SocialAPI.deleteComment ctx db ls cid).res = .error .commentNotFound
      ∧ (SocialAPI.deleteComment ctx db ls cid).db = db)
    ∧ (∀ c : CommentDoc, findDoc db.comments cid = some c → c.userId ≠ uidB →
      (SocialAPI.deleteComment ctx db ls cid).res = .error .notAuthorized
      ∧ (SocialAPI.deleteComment ctx db ls cid).db = db
      ∧ ((db.comments.filter (fun p => p.2.facultyId == c.facultyId)).length ≤ limit →
          (cid, c) ∈ (SocialAPI.getComments ctx
            (SocialAPI.deleteComment ctx db ls cid).db c.facultyId limit).comments))
    ∧ (∀ u : Unit, (SocialAPI.deleteComment ctx db ls cid).res = .ok u →
        ∃ c : CommentDoc, findDoc db.comments cid = some c ∧ c.userId = uidB) := by
  refine ⟨?_, ?_, ?_⟩
  · intro hnone
    simp [SocialAPI.deleteComment, hdb, hcq,
      getUserId_of_stored ls ctx.freshUserId uidB hid, hnone]
  · intro c hsome hne
    have hr : SocialAPI.deleteComment ctx db ls cid = ⟨.error .notAuthorized, db, ls⟩ := by
      simp [SocialAPI.deleteComment, hdb, hcq,
        getUserId_of_stored ls ctx.freshUserId uidB hid, hsome, hne]
    refine ⟨by rw [hr], by rw [hr], ?_⟩
    intro hle
    rw [hr]
    exact mem_getComments_of_le_limit ctx db c.facultyId limit cid c hdb hcq
      (findDoc_mem db.comments cid c hsome) rfl hle
  · intro u hok
    cases hf : findDoc db.comments cid with
    | none =>
      have hres : (SocialAPI.deleteComment ctx db ls cid).res = .error .commentNotFound := by
        simp [SocialAPI.deleteComment, hdb, hcq,
          getUserId_of_stored ls ctx.freshUserId uidB hid, hf]
      rw [hres] at hok
      cases hok
    | some c =>
      refine ⟨c, rfl, ?_⟩
      by_contra hne
      have hres : (SocialAPI.deleteComment ctx db ls cid).res = .error .notAuthorized := by
        simp [SocialAPI.deleteComment, hdb, hcq,
          getUserId_of_stored ls ctx.freshUserId uidB hid, hf, hne]
      rw [hres] at hok
      cases hok

/-- Witness for C2: actor "u1" tries to delete "u2"'s comment "c9"; the
attempt fails `notAuthorized`, the store is unchanged and the comment is
still in the `getComments` page. -/
theorem deleteComment_owner_only_witness :
    (SocialAPI.deleteComment ctxg dbOneComment lsAnn "c9").res = .error .notAuthorized
    ∧ (SocialAPI.deleteComment ctxg dbOneComment lsAnn "c9").db = dbOneComment
    ∧ ("c9", (⟨"f42", "u2", "Bob", "Great work!", 0, 0⟩ : CommentDoc)) ∈
        (SocialAPI.getComments ctxg
          (SocialAPI.deleteComment ctxg dbOneComment lsAnn "c9").db "f42" 50).comments := by
  have h := (deleteComment_owner_only ctxg dbOneComment lsAnn "c9" "u1" 50
      rfl rfl (by decide)).2.1
    ⟨"f42", "u2", "Bob", "Great work!", 0, 0⟩ (by decide) (by decide)
  exact ⟨h.1, h.2.1, h.2.2 (by decide)⟩

/-- C3: `addComment` validation runs before any store write — a body that is
blank after trimming fails `emptyComment`, a non-blank body longer than
2000 characters fails `commentTooLong`, both with the store (and hence the
subject's commentsCount) unchanged; a valid body is appended with
`createdAt` and `updatedAt` both set to the server write time. -/
theorem addComment_validation
    (ctx : Ctx) (db : Store) (ls : LocalStore) (fid content uid uname : String)
    (hdb : ctx.dbOk = true) (hw : ctx.writeFails = false)
    (hid : getItemTruthy ls.social_user_id = some uid)
    (hname : getItemTruthy ls.social_user_name = some uname) :
    ((jsTrim content).isEmpty = true →
      (SocialAPI.addComment ctx db ls fid content).res = .error .emptyComment
      ∧ (SocialAPI.addComment ctx db ls fid content).db = db
      ∧ SocialAPI.getCommentsCount ctx (SocialAPI.addComment ctx db ls fid content).db fid
          = SocialAPI.getCommentsCount ctx db fid)
    ∧ ((jsTrim content).isEmpty = false → 2000 < content.length →
      (SocialAPI.addComment ctx db ls fid content).res = .error .commentTooLong
      ∧ (SocialAPI.addComment ctx db ls fid content).db = db
      ∧ SocialAPI.getCommentsCount ctx (SocialAPI.addComment ctx db ls fid content).db fid
          = SocialAPI.getCommentsCount ctx db fid)
    ∧ ((jsTrim content).isEmpty = false → content.length ≤ 2000 →
      (SocialAPI.addComment ctx db ls fid content).db.comments
        = db.comments ++ [(ctx.freshCommentId,
            ⟨fid, uid, uname, jsTrim content, db.now, db.now⟩)]
      ∧ (SocialAPI.addComment ctx db ls fid content).res
        = .ok (ctx.freshCommentId, ⟨fid, uid, uname, jsTrim content, db.now, db.now⟩,
            SocialAPI.getCommentsCount ctx (SocialAPI.addComment ctx db ls fid content).db fid)) := by
  refine ⟨?_, ?_, ?_⟩
  · intro he
    simp [SocialAPI.addComment, hdb, getUserId_of_stored ls ctx.freshUserId uid hid,
      getUserName_of_stored ls ctx.promptResult uname hname, he]
  · intro he hlen
    simp [SocialAPI.addComment, hdb, getUserId_of_stored ls ctx.freshUserId uid hid,
      getUserName_of_stored ls ctx.promptResult uname hname, he, hlen]
  · intro he hlen
    have hnot : ¬ (2000 < content.length) := not_lt.mpr hlen
    simp [SocialAPI.addComment, hdb, hw, getUserId_of_stored ls ctx.freshUserId uid hid,
      getUserName_of_stored ls ctx.promptResult uname hname, he, hnot]

/-- Dropping leading whitespace leaves a run of 2001 letters unchanged. -/
theorem dropWhile_replicate_a :
    List.dropWhile isWhitespaceChar (List.replicate 2001 'a')
      = List.replicate 2001 'a' := by
  have hw : isWhitespaceChar 'a' = false := by decide
  rw [show (2001 : Nat) = 2000 + 1 from rfl, List.replicate_succ,
    List.dropWhile_cons, hw]
  rw [if_neg (by simp), ← List.replicate_succ]

/-- The 2001-character body is its own trim. -/
theorem jsTrim_longBody : jsTrim longBody = longBody := by
  simp only [jsTrim, longBody]
  rw [dropWhile_replicate_a, List.reverse_replicate, dropWhile_replicate_a,
    List.reverse_replicate]

/-- The 2001-character body is non-blank after trimming. -/
theorem longBody_trim_not_empty : (jsTrim longBody).isEmpty = false := by
  rw [jsTrim_longBody]
  cases h : longBody.isEmpty with
  | false => rfl
  | true =>
    exfalso
    have he : longBody = "" := (String.isEmpty_iff longBody).mp h
    have hlen : (List.replicate 2001 'a').length = "".data.length :=
      congrArg (fun s : String => s.data.length) he
    rw [List.length_replicate] at hlen
    exact absurd hlen (by decide)

/-- The 2001-character body exceeds the 2000-character bound. -/
theorem longBody_length_gt : 2000 < longBody.length := by
  have h : longBody.length = 2001 := List.length_replicate 2001 'a'
  rw [h]
  decide

/-- Witness for C3: a blank body fails `emptyComment`, a 2001-character body
fails `commentTooLong`, and a valid body is stored with write-time
timestamps, on the empty store with stored identity ("u1","Ann"). -/
theorem addComment_validation_witness :
    (SocialAPI.addComment ctxg dbEmpty lsAnn "f42" "   ").res = .error .emptyComment
    ∧ (SocialAPI.addComment ctxg dbEmpty lsAnn "f42" longBody).res = .error .commentTooLong
    ∧ (SocialAPI.addComment ctxg dbEmpty lsAnn "f42" "Great work!").db.comments
      = dbEmpty.comments ++ [(ctxg.freshCommentId,
          ⟨"f42", "u1", "Ann", jsTrim "Great work!", dbEmpty.now, dbEmpty.now⟩)] := by
  refine ⟨?_, ?_, ?_⟩
  · exact ((addComment_validation ctxg dbEmpty lsAnn "f42" "   " "u1" "Ann"
      rfl rfl (by decide) (by decide)).1 (by decide)).1
  · exact ((addComment_validation ctxg dbEmpty lsAnn "f42" longBody "u1" "Ann"
      rfl rfl (by decide) (by decide)).2.1 longBody_trim_not_empty longBody_length_gt).1
  · exact ((addComment_validation ctxg dbEmpty lsAnn "f42" "Great work!" "u1" "Ann"
      rfl rfl (by decide) (by decide)).2.2 (by decide) (by decide)).1

/-- C7: `getComments` returns at most `limit` comments, ordered newest-first
by `createdAt`; its `commentsCount` is the subject's total comment count
and its `hasMore` flag equals `totalCount > limit`. -/
theorem getComments_page_spec (ctx : Ctx) (db : Store) (fid : String) (limit : Nat)
    (hdb : ctx.dbOk = true) (hcq : ctx.commentsQueryFails = false) :
    (SocialAPI.getComments ctx db fid limit).comments.length ≤ limit
    ∧ (SocialAPI.getComments ctx db fid limit).comments.Pairwise
        (fun a b => b.2.createdAt ≤ a.2.createdAt)
    ∧ (SocialAPI.getComments ctx db fid limit).commentsCount
        = (db.comments.filter (fun p => p.2.facultyId == fid)).length
    ∧ (SocialAPI.getComments ctx db fid limit).hasMore
        = decide (limit < (SocialAPI.getComments ctx db fid limit).commentsCount) := by
  refine ⟨?_, ?_, ?_, ?_⟩
  · simp only [SocialAPI.getComments, SocialAPI.getCommentsCount, hdb, hcq,
      Bool.true_eq_false, Bool.false_eq_true, if_false]
    rw [List.length_take]
    exact min_le_left _ _
  · simp only [SocialAPI.getComments, SocialAPI.getCommentsCount, hdb, hcq,
      Bool.true_eq_false, Bool.false_eq_true, if_false]
    refine List.Pairwise.sublist (List.take_sublist _ _) ?_
    have hs := @List.sorted_mergeSort _ SocialAPI.newestFirst
      (fun a b c hab hbc => by
        simp only [SocialAPI.newestFirst, Nat.ble_eq] at hab hbc ⊢
        exact le_trans hbc hab)
      (fun a b => by
        simp only [SocialAPI.newestFirst, Bool.or_eq_true, Nat.ble_eq]
        exact Nat.le_total b.2.createdAt a.2.createdAt)
      (db.comments.filter (fun p => p.2.facultyId == fid))
    exact hs.imp (fun h => Nat.le_of_ble_eq_true h)
  · simp [SocialAPI.getComments, SocialAPI.getCommentsCount, hdb, hcq]
  · simp [SocialAPI.getComments, SocialAPI.getCommentsCount, hdb, hcq]

/-- Witness for C7: the page for subject "f42" on a store with one comment,
limit 50. -/
theorem getComments_page_spec_witness :
    (SocialAPI.getComments ctxg dbOneComment "f42" 50).comments.length ≤ 50
    ∧ (SocialAPI.getComments ctxg dbOneComment "f42" 50).comments.Pairwise
        (fun a b => b.2.createdAt ≤ a.2.createdAt)
    ∧ (SocialAPI.getComments ctxg dbOneComment "f42" 50).commentsCount
        = (dbOneComment.comments.filter (fun p => p.2.facultyId == "f42")).length
    ∧ (SocialAPI.getComments ctxg dbOneComment "f42" 50).hasMore
        = decide (50 < (SocialAPI.getComments ctxg dbOneComment "f42" 50).commentsCount) :=
  getComments_page_spec ctxg dbOneComment "f42" 50 rfl rfl

/-- C8: `getStats` always returns the triple of the three per-collection
counts (it is total — it cannot fail outright), where each field is the
true count when its own query succeeds and degrades to 0 exactly when its
own query fails, independently of the other two queries; and on a subject
with zero engagement the triple is (0,0,0). -/
theorem getStats_spec (ctx : Ctx) (db : Store) (fid : String)
    (hdb : ctx.dbOk = true) :
    SocialAPI.getStats ctx db fid
      = ⟨if ctx.likesQueryFails then 0
           else (db.likes.filter (fun p => p.2.facultyId == fid)).length,
         if ctx.commentsQueryFails then 0
           else (db.comments.filter (fun p => p.2.facultyId == fid)).length,
         if ctx.followsQueryFails then 0
           else (db.follows.filter (fun p => p.2.facultyId == fid)).length⟩
    ∧ ((db.likes.filter (fun p => p.2.facultyId == fid)).length = 0 →
       (db.comments.filter (fun p => p.2.facultyId == fid)).length = 0 →
       (db.follows.filter (fun p => p.2.facultyId == fid)).length = 0 →
       SocialAPI.getStats ctx db fid = ⟨0, 0, 0⟩) := by
  constructor
  · simp [SocialAPI.getStats, SocialAPI.getLikesCount, SocialAPI.getCommentsCount,
      SocialAPI.getFollowersCount, hdb]
  · intro h1 h2 h3
    simp [SocialAPI.getStats, SocialAPI.getLikesCount, SocialAPI.getCommentsCount,
      SocialAPI.getFollowersCount, hdb, h1, h2, h3]

/-- Witness for C8: a failing likes query on the store holding one like
degrades only the like field; all three queries failing degrade all
fields; and the zero-engagement subject "f42" on the empty store yields
(0,0,0). -/
theorem getStats_spec_witness :
    SocialAPI.getStats ctxLikesFail dbLiked "f"
      = ⟨0, (dbLiked.comments.filter (fun p => p.2.facultyId == "f")).length,
         (dbLiked.follows.filter (fun p => p.2.facultyId == "f")).length⟩
    ∧ SocialAPI.getStats ctxAllFail dbLiked "f" = ⟨0, 0, 0⟩
    ∧ SocialAPI.getStats ctxg dbEmpty "f42" = ⟨0, 0, 0⟩ := by
  refine ⟨?_, ?_, ?_⟩
  · exact (getStats_spec ctxLikesFail dbLiked "f" rfl).1
  · exact (getStats_spec ctxAllFail dbLiked "f" rfl).1
  · exact (getStats_spec ctxg dbEmpty "f42" rfl).2 (by decide) (by decide) (by decide)

/-- C9: when no (truthy) display name is stored and none is obtainable from
the prompt, each mutating call — `like`, `addComment`, `follow` — fails
with the display-name error ("User name is required", the spec's
NoDisplayName) before any document-store write: the store is unchanged. -/
theorem noDisplayName_blocks_mutation
    (ctx : Ctx) (db : Store) (ls : LocalStore) (fid rt content : String)
    (hdb : ctx.dbOk = true)
    (hname : getItemTruthy ls.social_user_name = none)
    (hpr : ∀ s, ctx.promptResult = some s → (jsTrim s).isEmpty = true) :
    ((SocialAPI.like ctx db ls fid rt).res = .error .userNameRequired
      ∧ (SocialAPI.like ctx db ls fid rt).db = db)
    ∧ ((SocialAPI.addComment ctx db ls fid content).res = .error .userNameRequired
      ∧ (SocialAPI.addComment ctx db ls fid content).db = db)
    ∧ ((SocialAPI.follow ctx db ls fid).res = .error .userNameRequired
      ∧ (SocialAPI.follow ctx db ls fid).db = db) := by
  have hn2 : getItemTruthy (getUserId ls ctx.freshUserId).2.social_user_name = none := by
    rw [getUserId_social_user_name, hname]
  have hgn : (getUserName (getUserId ls ctx.freshUserId).2 ctx.promptResult).1 = none := by
    unfold getUserName
    rw [hn2]
    cases hp : ctx.promptResult with
    | none => rfl
    | some s => simp [hpr s hp]
  refine ⟨⟨?_, ?_⟩, ⟨?_, ?_⟩, ⟨?_, ?_⟩⟩ <;>
    simp [SocialAPI.like, SocialAPI.addComment, SocialAPI.follow, hdb, hgn]

/-- Witness for C9: stored id "u1", no stored name, no prompt answer — all
three mutators fail with the display-name error and leave the store as is. -/
theorem noDisplayName_blocks_mutation_witness :
    ((SocialAPI.like ctxg dbEmpty lsNoName "f42" "like").res = .error .userNameRequired
      ∧ (SocialAPI.like ctxg dbEmpty lsNoName "f42" "like").db = dbEmpty)
    ∧ ((SocialAPI.addComment ctxg dbEmpty lsNoName "f42" "hello").res
        = .error .userNameRequired
      ∧ (SocialAPI.addComment ctxg dbEmpty lsNoName "f42" "hello").db = dbEmpty)
    ∧ ((SocialAPI.follow ctxg dbEmpty lsNoName "f42").res = .error .userNameRequired
      ∧ (SocialAPI.follow ctxg dbEmpty lsNoName "f42").db = dbEmpty) :=
  noDisplayName_blocks_mutation ctxg dbEmpty lsNoName "f42" "like" "hello"
    rfl (by decide) (fun s hs => by cases hs)

/-- Counterexample to C5 as stated: a store-layer failure in the count and
existence reads does not surface as any distinct error condition — with
the likes query failing, `getLikesCount` returns the default 0 and
`hasUserLiked` returns the default false on a store whose true count is 1
and where the user's like exists, exactly what a successful read of an
empty store would return.  (`getLikesCount` returns a bare `Nat`: the
error is swallowed, not surfaced.) -/
theorem reads_swallow_failure_counterexample :
    SocialAPI.getLikesCount ctxLikesFail dbLiked "f" = 0
    ∧ SocialAPI.getLikesCount ctxg dbLiked "f" = 1
    ∧ (SocialAPI.hasUserLiked ctxLikesFail dbLiked lsAnn "f").1 = false
    ∧ (SocialAPI.hasUserLiked ctxg dbLiked lsAnn "f").1 = true := by
  decide

/-- C5 (amended): every mutating operation — `like`, `unlike`,
`deleteComment`, `addComment` (on a body that passes validation) and
`follow` — rethrows a store failure as a distinct error with the store
unchanged; but every read helper — `getLikesCount`, `getCommentsCount`,
`getFollowersCount`, `hasUserLiked` and `getComments` — catches store
failures and returns the default 0 / false / empty page instead of
surfacing an error: those reads are silently degraded, not propagated. -/
theorem storeFailure_propagation
    (ctx : Ctx) (db : Store) (ls : LocalStore)
    (fid cid rt content : String) (limit : Nat) (uid uname : String)
    (hdb : ctx.dbOk = true) (hw : ctx.writeFails = true)
    (hq : ctx.likesQueryFails = true) (hcq : ctx.commentsQueryFails = true)
    (hfq : ctx.followsQueryFails = true)
    (hid : getItemTruthy ls.social_user_id = some uid)
    (hname : getItemTruthy ls.social_user_name = some uname) :
    (SocialAPI.like ctx db ls fid rt).res = .error .storeFailure
    ∧ (SocialAPI.like ctx db ls fid rt).db = db
    ∧ (SocialAPI.unlike ctx db ls fid).res = .error .storeFailure
    ∧ (SocialAPI.unlike ctx db ls fid).db = db
    ∧ (SocialAPI.deleteComment ctx db ls cid).res = .error .storeFailure
    ∧ (SocialAPI.deleteComment ctx db ls cid).db = db
    ∧ (SocialAPI.follow ctx db ls fid).res = .error .storeFailure
    ∧ (SocialAPI.follow ctx db ls fid).db = db
    ∧ SocialAPI.getLikesCount ctx db fid = 0
    ∧ SocialAPI.getCommentsCount ctx db fid = 0
    ∧ SocialAPI.getFollowersCount ctx db fid = 0
    ∧ (SocialAPI.hasUserLiked ctx db ls fid).1 = false
    ∧ SocialAPI.getComments ctx db fid limit = ⟨[], 0, false⟩
    ∧ ((jsTrim content).isEmpty = false → content.length ≤ 2000 →
      (SocialAPI.addComment ctx db ls fid content).res = .error .storeFailure
      ∧ (SocialAPI.addComment ctx db ls fid content).db = db) := by
  have hlike : SocialAPI.like ctx db ls fid rt = ⟨.error .storeFailure, db, ls⟩ := by
    simp [SocialAPI.like, hdb, hw, getUserId_of_stored ls ctx.freshUserId uid hid,
      getUserName_of_stored ls ctx.promptResult uname hname]
  have hunlike : SocialAPI.unlike ctx db ls fid = ⟨.error .storeFailure, db, ls⟩ := by
    simp [SocialAPI.unlike, hdb, hw, getUserId_of_stored ls ctx.freshUserId uid hid]
  have hdelc : SocialAPI.deleteComment ctx db ls cid = ⟨.error .storeFailure, db, ls⟩ := by
    simp [SocialAPI.deleteComment, hdb, hcq, getUserId_of_stored ls ctx.freshUserId uid hid]
  have hfollow : SocialAPI.follow ctx db ls fid = ⟨.error .storeFailure, db, ls⟩ := by
    simp [SocialAPI.follow, hdb, hw, getUserId_of_stored ls ctx.freshUserId uid hid,
      getUserName_of_stored ls ctx.promptResult uname hname]
  refine ⟨by rw [hlike], by rw [hlike], by rw [hunlike], by rw [hunlike],
    by rw [hdelc], by rw [hdelc], by rw [hfollow], by rw [hfollow],
    by simp [SocialAPI.getLikesCount, hdb, hq],
    by simp [SocialAPI.getCommentsCount, hdb, hcq],
    by simp [SocialAPI.getFollowersCount, hdb, hfq],
    by simp [SocialAPI.hasUserLiked, hdb, hq,
      getUserId_of_stored ls ctx.freshUserId uid hid],
    by simp [SocialAPI.getComments, hdb, hcq], ?_⟩
  intro he hlen
  have hnot : ¬ (2000 < content.length) := not_lt.mpr hlen
  have haddc : SocialAPI.addComment ctx db ls fid content
      = ⟨.error .storeFailure, db, ls⟩ := by
    simp [SocialAPI.addComment, hdb, hw, getUserId_of_stored ls ctx.freshUserId uid hid,
      getUserName_of_stored ls ctx.promptResult uname hname, he, hnot]
  exact ⟨by rw [haddc], by rw [haddc]⟩

/-- Witness for C5 (amended): every store call failing, on the store with
one like, stored identity ("u1","Ann"), the valid body "hello", limit 50. -/
theorem storeFailure_propagation_witness :
    (SocialAPI.like ctxAllFail dbLiked lsAnn "f" "like").res = .error .storeFailure
    ∧ (SocialAPI.like ctxAllFail dbLiked lsAnn "f" "like").db = dbLiked
    ∧ (SocialAPI.unlike ctxAllFail dbLiked lsAnn "f").res = .error .storeFailure
    ∧ (SocialAPI.unlike ctxAllFail dbLiked lsAnn "f").db = dbLiked
    ∧ (SocialAPI.deleteComment ctxAllFail dbLiked lsAnn "c9").res = .error .storeFailure
    ∧ (SocialAPI.deleteComment ctxAllFail dbLiked lsAnn "c9").db = dbLiked
    ∧ (SocialAPI.follow ctxAllFail dbLiked lsAnn "f").res = .error .storeFailure
    ∧ (SocialAPI.follow ctxAllFail dbLiked lsAnn "f").db = dbLiked
    ∧ SocialAPI.getLikesCount ctxAllFail dbLiked "f" = 0
    ∧ SocialAPI.getCommentsCount ctxAllFail dbLiked "f" = 0
    ∧ SocialAPI.getFollowersCount ctxAllFail dbLiked "f" = 0
    ∧ (SocialAPI.hasUserLiked ctxAllFail dbLiked lsAnn "f").1 = false
    ∧ SocialAPI.getComments ctxAllFail dbLiked "f" 50 = ⟨[], 0, false⟩
    ∧ (SocialAPI.addComment ctxAllFail dbLiked lsAnn "f" "hello").res
        = .error .storeFailure
    ∧ (SocialAPI.addComment ctxAllFail dbLiked lsAnn "f" "hello").db = dbLiked := by
  obtain ⟨h1, h2, h3, h4, h5, h6, h7, h8, h9, h10, h11, h12, h13, h14⟩ :=
    storeFailure_propagation ctxAllFail dbLiked lsAnn "f" "c9" "like" "hello" 50
      "u1" "Ann" rfl rfl rfl rfl rfl (by decide) (by decide)
  exact ⟨h1, h2, h3, h4, h5, h6, h7, h8, h9, h10, h11, h12, h13,
    (h14 (by decide) (by decide)).1, (h14 (by decide) (by decide)).2⟩

/-- C10: signing out does not clear the locally stored identity written by
an authenticated sign-in — the stored actorId remains the session uid, so
`getUserId` keeps resolving to it and `like`, `addComment` and `follow`
issued after the sign-out still write documents whose `userId` is the
last authenticated uid. -/
theorem signOut_keeps_identity
    (ctx : Ctx) (db : Store) (ls : LocalStore) (uid : String)
    (dn : Option String) (email fid rt content nm : String)
    (hdb : ctx.dbOk = true) (hw : ctx.writeFails = false)
    (huid : uid.isEmpty = false)
    (hnm : getItemTruthy (AuthAPI.signInWithEmail ls uid dn email).social_user_name
      = some nm) :
    AuthAPI.signOut (AuthAPI.signInWithEmail ls uid dn email)
      = AuthAPI.signInWithEmail ls uid dn email
    ∧ (getUserId (AuthAPI.signOut (AuthAPI.signInWithEmail ls uid dn email))
        ctx.freshUserId).1 = uid
    ∧ findDoc (SocialAPI.like ctx db
        (AuthAPI.signOut (AuthAPI.signInWithEmail ls uid dn email)) fid rt).db.likes
        (likeDocId fid uid)
      = some ⟨fid, uid, nm, rt, db.now⟩
    ∧ ((jsTrim content).isEmpty = false → content.length ≤ 2000 →
      (SocialAPI.addComment ctx db
          (AuthAPI.signOut (AuthAPI.signInWithEmail ls uid dn email)) fid content).db.comments
        = db.comments ++ [(ctx.freshCommentId,
            ⟨fid, uid, nm, jsTrim content, db.now, db.now⟩)])
    ∧ findDoc (SocialAPI.follow ctx db
        (AuthAPI.signOut (AuthAPI.signInWithEmail ls uid dn email)) fid).db.follows
        (likeDocId fid uid)
      = some ⟨fid, uid, nm, db.now⟩ := by
  have hso : AuthAPI.signOut (AuthAPI.signInWithEmail ls uid dn email)
      = AuthAPI.signInWithEmail ls uid dn email := rfl
  have hid : getItemTruthy (AuthAPI.signInWithEmail ls uid dn email).social_user_id
      = some uid := by
    simp [AuthAPI.signInWithEmail, getItemTruthy, huid]
  refine ⟨hso, ?_, ?_, ?_, ?_⟩
  · rw [hso, getUserId_of_stored _ ctx.freshUserId uid hid]
  · rw [hso, like_eq ctx db (AuthAPI.signInWithEmail ls uid dn email) fid rt uid nm hdb hw hid hnm]
    exact findDoc_setDoc_self _ _ _
  · intro he hlen
    rw [hso]
    exact ((addComment_validation ctx db (AuthAPI.signInWithEmail ls uid dn email)
      fid content uid nm hdb hw hid hnm).2.2 he hlen).1
  · rw [hso]
    have hf : SocialAPI.follow ctx db (AuthAPI.signInWithEmail ls uid dn email) fid
        = ⟨.ok (SocialAPI.getFollowersCount ctx
            { db with
              follows := setDoc db.follows (likeDocId fid uid) ⟨fid, uid, nm, db.now⟩,
              now := db.now + 1 } fid),
          { db with
            follows := setDoc db.follows (likeDocId fid uid) ⟨fid, uid, nm, db.now⟩,
            now := db.now + 1 },
          AuthAPI.signInWithEmail ls uid dn email⟩ := by
      simp [SocialAPI.follow, hdb, hw,
        getUserId_of_stored _ ctx.freshUserId uid hid,
        getUserName_of_stored _ ctx.promptResult nm hnm]
    rw [hf]
    exact findDoc_setDoc_self _ _ _

/-- Witness for C10: after signing in as uid "uid9" (display name "Dana")
and signing out, engagement still writes under "uid9". -/
theorem signOut_keeps_identity_witness :
    AuthAPI.signOut (AuthAPI.signInWithEmail lsAnn "uid9" (some "Dana") "dana@example.com")
      = AuthAPI.signInWithEmail lsAnn "uid9" (some "Dana") "dana@example.com"
    ∧ (getUserId (AuthAPI.signOut
        (AuthAPI.signInWithEmail lsAnn "uid9" (some "Dana") "dana@example.com"))
        ctxg.freshUserId).1 = "uid9"
    ∧ findDoc (SocialAPI.like ctxg dbEmpty
        (AuthAPI.signOut (AuthAPI.signInWithEmail lsAnn "uid9" (some "Dana")
          "dana@example.com")) "f42" "like").db.likes
        (likeDocId "f42" "uid9")
      = some ⟨"f42", "uid9", "Dana", "like", dbEmpty.now⟩
    ∧ findDoc (SocialAPI.follow ctxg dbEmpty
        (AuthAPI.signOut (AuthAPI.signInWithEmail lsAnn "uid9" (some "Dana")
          "dana@example.com")) "f42").db.follows
        (likeDocId "f42" "uid9")
      = some ⟨"f42", "uid9", "Dana", dbEmpty.now⟩ := by
  have h := signOut_keeps_identity ctxg dbEmpty lsAnn "uid9" (some "Dana")
    "dana@example.com" "f42" "like" "hello" "Dana" rfl rfl (by decide) (by decide)
  exact ⟨h.1, h.2.1, h.2.2.1, h.2.2.2.2⟩
